import Mathlib

/-!
Verification of the carbonix-aws-libs handler classes (Athena, S3, Aurora)
against their natural-language specification.

The remote AWS services are modelled as oracles supplied in small
environment structures; each handler method is embedded as a Lean function
over those oracles, faithful to the Python source in
`src/carbonix_aws_libs/`.  Python `None` results become `Option`/explicit
constructors, a caught client error is the `none` branch of the relevant
oracle, and an exception escaping a method is an explicit `PyResult.exn`
value.  The unbounded polling loop of
`AthenaHandler.wait_for_query_to_complete` is embedded with explicit fuel:
`none` means "has not returned after `fuel` polls", which lets both
termination and non-termination be stated.
-/

/-- Exceptions of the Python runtime that the embedded code can let escape
to the caller (an `IndexError` from indexing past the end of a list, a
`KeyError` from a missing dictionary key). -/
inductive PyErr where
  | indexError
  | keyError
deriving DecidableEq

/-- Outcome of running one handler method: a normal return value, an
exception escaping to the caller, or (for methods that enter the polling
loop) no return within the given fuel. -/
inductive PyResult (α : Type) where
  | ok (a : α)
  | exn (e : PyErr)
  | hang
deriving DecidableEq

/-- Remote calls an Athena handler method can make, recorded in order:
`start_query_execution`, `get_query_execution` (status poll) and
`get_query_results`. -/
inductive AwsCall where
  | startQ (query : String)
  | getStatus (qid : String)
  | getResults (qid : String)
deriving DecidableEq

/-- One cell of an Athena result row: the optional `VarCharValue` entry of
the cell's dictionary. -/
structure Cell where
  varCharValue : Option String
deriving DecidableEq

/-- One row of an Athena result set: the optional `Data` entry (a row
dictionary need not carry a `Data` key). -/
structure Row where
  rowData : Option (List Cell)
deriving DecidableEq

/-- Shape of a `get_query_results` response as the Python code inspects it:
a caught client error (`err`, the Python `None`), a response without a
`ResultSet` key, a `ResultSet` without a `Rows` key, or the list of rows. -/
inductive ResultsResponse where
  | err
  | noResultSet
  | noRows
  | rows (rs : List Row)
deriving DecidableEq

/-- The remote Athena engine as seen by one handler call sequence:
`start q` is the execution id `start_query_execution` returns for query
text `q` (`none` when the call raises `ClientError`, which
`execute_query` catches); `status n` is what the `n`-th call of
`get_query_status` reports (`none` when that call's `ClientError` is
caught and `None` is returned); `results qid` is the
`get_query_results` response for execution id `qid`. -/
structure AthenaEnv where
  start : String → Option String
  status : Nat → Option String
  results : String → ResultsResponse

namespace AthenaHandler

/-- Embedding of `status in ['SUCCEEDED', 'FAILED', 'CANCELLED']` from
`wait_for_query_to_complete`: the Python `None` status (a caught polling
error) is not a member, so it is not terminal. -/
def is_terminal (status : Option String) : Bool :=
  match status with
  | some s => ["SUCCEEDED", "FAILED", "CANCELLED"].contains s
  | none => false

/-- Embedding of the `while True` loop of `wait_for_query_to_complete`,
polling from poll index `k` with explicit fuel: `some b` when the loop
returns `b` within `fuel` polls, `none` when it is still polling after
`fuel` polls.  Each iteration reads one status from the oracle and returns
`status == 'SUCCEEDED'` exactly on a terminal status. -/
def wait_from (st : Nat → Option String) (k fuel : Nat) : Option Bool :=
  match fuel with
  | 0 => none
  | fuel + 1 =>
    let status := st k
    if is_terminal status then some (status == some "SUCCEEDED")
    else wait_from st (k + 1) fuel

/-- Embedding of `AthenaHandler.wait_for_query_to_complete` (the polls
start at index 0).  The `delay` sleep has no observable effect in this
model and is omitted. -/
def wait_for_query_to_complete (st : Nat → Option String) (fuel : Nat) :
    Option Bool :=
  wait_from st 0 fuel

/-- Number of `get_query_status` calls the polling loop makes before
returning, capped by the fuel (used to record the accessors' call
traces). -/
def wait_count (st : Nat → Option String) (k fuel : Nat) : Nat :=
  match fuel with
  | 0 => 0
  | fuel + 1 =>
    if is_terminal (st k) then 1
    else wait_count st (k + 1) fuel + 1

/-- Embedding of `AthenaHandler.execute_query`: the oracle already folds
the caught `ClientError` into `none`, and the execution id is returned
unchanged. -/
def execute_query (env : AthenaEnv) (query : String) : Option String :=
  env.start query

/-- Query text built by `check_loguid_exists`. -/
def check_loguid_query (database loguid : String) : String :=
  s!"\n        SELECT loguid\n        FROM {database}\n        WHERE loguid = \x27{loguid}\x27\n        LIMIT 1;\n        "

/-- Embedding of `AthenaHandler.check_loguid_exists`, returning the result
together with the ordered trace of remote calls made. -/
def check_loguid_exists (env : AthenaEnv) (database loguid : String)
    (fuel : Nat) : PyResult Bool × List AwsCall :=
  let q := check_loguid_query database loguid
  match env.start q with
  | none => (.ok false, [.startQ q])
  | some qid =>
    match wait_for_query_to_complete env.status fuel with
    | none =>
      (.hang, .startQ q :: List.replicate (wait_count env.status 0 fuel) (.getStatus qid))
    | some completed =>
      let tr := AwsCall.startQ q :: List.replicate (wait_count env.status 0 fuel) (.getStatus qid)
      if completed then
        match env.results qid with
        | .rows rs => (.ok (decide (rs.length > 1)), tr ++ [.getResults qid])
        | _ => (.ok false, tr ++ [.getResults qid])
      else (.ok false, tr)

/-- Query text built inline by `get_boot_time` for `.BIN` and `.TLOG`
file types; `none` for any other file type (the method returns `None`
before any remote call). -/
def boot_time_query (database loguid file_type : String) : Option String :=
  if file_type = ".BIN" then
    some s!"\n            SELECT loguid, timestamp\n            FROM {database}\n            WHERE loguid = \x27{loguid}\x27\n            AND (MessageType = \x27FMT\x27)\n            AND (KeyName = \x27Type\x27)\n            ORDER BY timestamp ASC\n            LIMIT 1;\n            "
  else if file_type = ".TLOG" then
    some s!"\n            SELECT loguid, timestamp\n            FROM {database}\n            WHERE loguid = \x27{loguid}\x27\n            AND (MessageType = \x27HEARTBEAT\x27)\n            AND (KeyName = \x27type\x27)\n            ORDER BY timestamp ASC\n            LIMIT 1;\n            "
  else none

/-- Embedding of `AthenaHandler.get_boot_time`.  The body indexes
`results['ResultSet']['Rows'][1]` and `first_row['Data'][1]['VarCharValue']`
without guarding, so a short or narrow result set lets an `IndexError`
or `KeyError` escape — the embedding records these as `PyResult.exn`. -/
def get_boot_time (env : AthenaEnv) (database loguid file_type : String)
    (fuel : Nat) : PyResult (Option String) × List AwsCall :=
  match boot_time_query database loguid file_type with
  | none => (.ok none, [])
  | some q =>
    match env.start q with
    | none => (.ok none, [.startQ q])
    | some qid =>
      match wait_for_query_to_complete env.status fuel with
      | none =>
        (.hang, .startQ q :: List.replicate (wait_count env.status 0 fuel) (.getStatus qid))
      | some completed =>
        let tr := AwsCall.startQ q :: List.replicate (wait_count env.status 0 fuel) (.getStatus qid)
        if completed then
          match env.results qid with
          | .rows rs =>
            let tr := tr ++ [AwsCall.getResults qid]
            match rs.get? 1 with
            | none => (.exn .indexError, tr)
            | some first_row =>
              match first_row.rowData with
              | none => (.exn .keyError, tr)
              | some cells =>
                match cells.get? 1 with
                | none => (.exn .indexError, tr)
                | some cell =>
                  match cell.varCharValue with
                  | none => (.exn .keyError, tr)
                  | some value => (.ok (some value), tr)
          | _ => (.ok none, tr ++ [AwsCall.getResults qid])
        else (.ok none, tr)

/-- Query text of `get_fc_firmware_query` (a fixed template over the
loguid; reproduced with its interpolation points, newlines flattened). -/
def get_fc_firmware_query (loguid : String) : String :=
  s!"\n        WITH RankedLogs AS (\n            SELECT \n                loguid, messagetype, instance, keyname, stringvalue,\n                ROW_NUMBER() OVER (PARTITION BY loguid ORDER BY loguid) AS rn\n            FROM telemetry_pool_v5.carbonix_logs_telemetry_data_pool\n            WHERE loguid = \x27{loguid}\x27\n              AND (\n                (messagetype = \x27MSG\x27 AND instance = \x270\x27 AND keyname = \x27Message\x27 \n                 AND (LOWER(stringvalue) LIKE \x27%ardupilot%\x27 OR LOWER(stringvalue) LIKE \x27%carbopilot%\x27 OR LOWER(stringvalue) LIKE \x27%cxpilot%\x27))\n                OR \n                (messagetype = \x27STATUSTEXT\x27 AND instance = \x271\x27 AND keyname = \x27text\x27\n                 AND (LOWER(stringvalue) LIKE \x27%ardupilot%\x27 OR LOWER(stringvalue) LIKE \x27%carbopilot%\x27 OR LOWER(stringvalue) LIKE \x27%cxpilot%\x27))\n              )\n        )\n        SELECT loguid, messagetype, instance, keyname, stringvalue\n        FROM RankedLogs\n        WHERE rn = 1\n        ORDER BY loguid;\n        "

/-- Embedding of `AthenaHandler.get_fc_firmware`: after a successful wait
it reads `rows[1]['Data'][4]['VarCharValue']` guarded by
`len(rows) > 1 and 'Data' in rows[1] and len(rows[1]['Data']) > 4`
(the guards collapse into the `Option` matches below); a cell without a
`VarCharValue` key would still raise a `KeyError`. -/
def get_fc_firmware (env : AthenaEnv) (loguid : String) (fuel : Nat) :
    PyResult (Option String) × List AwsCall :=
  let q := get_fc_firmware_query loguid
  match env.start q with
  | none => (.ok none, [.startQ q])
  | some qid =>
    match wait_for_query_to_complete env.status fuel with
    | none =>
      (.hang, .startQ q :: List.replicate (wait_count env.status 0 fuel) (.getStatus qid))
    | some completed =>
      let tr := AwsCall.startQ q :: List.replicate (wait_count env.status 0 fuel) (.getStatus qid)
      if completed then
        match env.results qid with
        | .rows rs =>
          let tr := tr ++ [AwsCall.getResults qid]
          match rs.get? 1 with
          | none => (.ok none, tr)
          | some row1 =>
            match row1.rowData with
            | none => (.ok none, tr)
            | some cells =>
              match cells.get? 4 with
              | none => (.ok none, tr)
              | some cell =>
                match cell.varCharValue with
                | none => (.exn .keyError, tr)
                | some v => (.ok (some v), tr)
        | _ => (.ok none, tr ++ [AwsCall.getResults qid])
      else (.ok none, tr)

/-- Character-level embedding of Python `str.replace("\\", "/")` (the
pattern is a single character, so it is a character map). -/
def replace_backslash (l : List Char) : List Char :=
  l.map (fun c => if c = '\\' then '/' else c)

/-- Character-level embedding of Python `str.rstrip("\n")`: drop trailing
newline characters. -/
def rstrip_newline (l : List Char) : List Char :=
  (l.reverse.dropWhile (fun c => c = '\n')).reverse

/-- Worker for `split_char`: accumulates the current piece in reverse. -/
def split_char_go (sep : Char) : List Char → List Char → List (List Char)
  | [], acc => [acc.reverse]
  | c :: rest, acc =>
    if c = sep then acc.reverse :: split_char_go sep rest []
    else split_char_go sep rest (c :: acc)

/-- Character-level embedding of Python `str.split(sep)` for a one-character
separator: every occurrence splits, empty pieces are kept, and the empty
string yields `[""]`. -/
def split_char (sep : Char) (l : List Char) : List (List Char) :=
  split_char_go sep l []

/-- Python `folder.replace("\\", "/").lstrip("/").rstrip("\n")` from
`get_add_partition_query`, lifted to `String`. -/
def normalize_folder (folder : String) : String :=
  String.mk (rstrip_newline ((replace_backslash folder.toList).dropWhile (fun c => c = '/')))

/-- Python `s.split(sep)` lifted to `String`. -/
def split_str (sep : Char) (s : String) : List String :=
  (split_char sep s.toList).map String.mk

/-- Python `parts[i].split("=")[1]` from `get_add_partition_query`:
`none` exactly where the original raises `IndexError` (no part `i`, or
part `i` has no `=` separator). -/
def part_val (parts : List String) (i : Nat) : Option String :=
  (parts.get? i).bind fun p => (split_str '=' p).get? 1

/-- One iteration of the `for folder in partition_list` loop of
`get_add_partition_query`: the `PARTITION ... LOCATION ...` clause for a
well-formed folder path, `none` where the original catches `IndexError`
and skips the entry. -/
def partition_clause (s3_bucket_name folder : String) : Option String :=
  let f := normalize_folder folder
  let parts := split_str '/' f
  match part_val parts 0, part_val parts 1, part_val parts 2, part_val parts 3 with
  | some loguid, some messagetype, some inst, some keyname =>
    some s!"PARTITION (loguid=\x27{loguid}\x27, messagetype=\x27{messagetype}\x27, instance=\x27{inst}\x27, keyname=\x27{keyname}\x27)\nLOCATION \x27s3://{s3_bucket_name}/{f}\x27"
  | _, _, _, _ => none

/-- Embedding of `AthenaHandler.get_add_partition_query`: the loop
accumulates clauses in order, skipping entries whose parse raises; the
result is `None` when no clause was produced (despite the `str`
annotation in the source). -/
def get_add_partition_query (database : String) (partition_list : List String)
    (s3_bucket_name : String) : Option String :=
  let partitions := partition_list.foldl
    (fun acc folder =>
      match partition_clause s3_bucket_name folder with
      | some p => acc ++ [p]
      | none => acc) []
  if partitions.isEmpty then none
  else some (s!"ALTER TABLE {database} ADD\n" ++ String.intercalate "\n" partitions ++ ";")

/-- Embedding of `AthenaHandler.add_partitions`, with its trace of remote
calls: an absent query means no remote call at all. -/
def add_partitions (env : AthenaEnv) (database : String)
    (partition_list : List String) (s3_bucket_name : String) (fuel : Nat) :
    PyResult Bool × List AwsCall :=
  match get_add_partition_query database partition_list s3_bucket_name with
  | none => (.ok false, [])
  | some q =>
    match env.start q with
    | none => (.ok false, [.startQ q])
    | some qid =>
      match wait_for_query_to_complete env.status fuel with
      | none =>
        (.hang, .startQ q :: List.replicate (wait_count env.status 0 fuel) (.getStatus qid))
      | some completed =>
        (.ok completed, .startQ q :: List.replicate (wait_count env.status 0 fuel) (.getStatus qid))

/-- Characterization from the specification's words, for claim C6: a
partition-path entry is well formed when, after normalization, it has at
least four `/`-separated parts and each of the first four carries a
`key=value` shape (an `=` separator). -/
def well_formed_partition (folder : String) : Bool :=
  let parts := split_str '/' (normalize_folder folder)
  decide (4 ≤ parts.length) && (parts.take 4).all (fun p => decide (2 ≤ (split_str '=' p).length))

end AthenaHandler

/-- Remote S3 service as seen by one handler call: whether a given
`copy_object` succeeds, whether a given `delete_object` succeeds, and the
`datetime.now().strftime("%Y%m%d-%H%M%S")` timestamp observed by
`upload_unprocessed_s3`. -/
structure S3Env where
  copyOk : String → String → String → String → Bool
  deleteOk : String → String → Bool
  now : String

/-- Remote S3 operations a handler method can perform, in order. -/
inductive S3Op where
  | copy (source_bucket source_key destination_bucket destination_key : String)
  | del (bucket_name object_key : String)
deriving DecidableEq

namespace S3Handler

/-- Embedding of `S3Handler.copy_file_s3_to_s3`: one `copy_object` call,
every raised error caught and turned into `False`. -/
def copy_file_s3_to_s3 (env : S3Env)
    (source_bucket source_key destination_bucket destination_key : String) :
    Bool × List S3Op :=
  (env.copyOk source_bucket source_key destination_bucket destination_key,
   [.copy source_bucket source_key destination_bucket destination_key])

/-- Embedding of `S3Handler.delete_file_s3`: one `delete_object` call,
every raised error caught and turned into `False`. -/
def delete_file_s3 (env : S3Env) (bucket_name object_key : String) :
    Bool × List S3Op :=
  (env.deleteOk bucket_name object_key, [.del bucket_name object_key])

/-- Embedding of `S3Handler.upload_unprocessed_s3`: copy the source object
to `{s3dir}/{timestamp}/{source_key}` in the unprocessed bucket, and
delete the source only when the copy returned `True`. -/
def upload_unprocessed_s3 (env : S3Env) (source_bucket source_key
    unprocessed_destination_bucket s3dir : String) : Bool × List S3Op :=
  let destination_key := s3dir ++ "/" ++ env.now ++ "/" ++ source_key
  let c := copy_file_s3_to_s3 env source_bucket source_key
    unprocessed_destination_bucket destination_key
  if c.1 then
    let d := delete_file_s3 env source_bucket source_key
    (d.1, c.2 ++ d.2)
  else (false, c.2)

end S3Handler

/-- Remote MySQL server and Secrets Manager as seen by one Aurora handler
call: whether connecting succeeds, whether a given statement execution
succeeds, and the `lastrowid` the cursor reports after an insert. -/
structure DbEnv where
  connectOk : Bool
  execOk : String → List String → Bool
  lastrowid : Nat

/-- State of the handler's connection and of the remote database.  A
statement that executed joins `pending` (the open transaction);
`commit` makes `pending` durable in `committed`; `rollback` discards
`pending` and counts the call in `rollbacks`; closing the connection also
discards `pending` (the server rolls an uncommitted transaction back when
the connection goes away) without counting a `rollback()` call. -/
structure DbState where
  conn : Bool
  committed : List (String × List String)
  pending : List (String × List String)
  rollbacks : Nat
deriving DecidableEq

namespace AuroraHandler

/-- Execution of one statement on the open connection (`cursor.execute`
succeeded): the statement joins the open transaction. -/
def db_exec (st : DbState) (query : String) (params : List String) : DbState :=
  { st with pending := st.pending ++ [(query, params)] }

/-- Embedding of `self.connection.commit()`. -/
def db_commit (st : DbState) : DbState :=
  { st with committed := st.committed ++ st.pending, pending := [] }

/-- Embedding of `self.connection.rollback()`. -/
def db_rollback (st : DbState) : DbState :=
  { st with pending := [], rollbacks := st.rollbacks + 1 }

/-- Embedding of `close_connection`: the connection is dropped and the
server discards the open (uncommitted) transaction; no `rollback()` call
is recorded. -/
def close_connection (st : DbState) : DbState :=
  { st with conn := false, pending := [] }

/-- Embedding of `if not self.connection and not self.connect()` followed
by the established connection: `(False, st)` when there is no connection
and connecting fails. -/
def ensure_conn (env : DbEnv) (st : DbState) : Bool × DbState :=
  if st.conn then (true, st)
  else if env.connectOk then (true, { st with conn := true })
  else (false, st)

/-- Embedding of `AuroraHandler.execute_insert_or_update`: one statement,
committed on success; on an execution error the transaction is rolled
back and `False` returned. -/
def execute_insert_or_update (env : DbEnv) (st : DbState) (query : String)
    (params : List String) : Bool × DbState :=
  match ensure_conn env st with
  | (false, st1) => (false, st1)
  | (true, st1) =>
    if env.execOk query params then (true, db_commit (db_exec st1 query params))
    else (false, db_rollback st1)

/-- Result values `insert_to_flighttable` actually returns: the new row id
on success, the literal `False` when no connection could be made, and
`None` when the `try` block raised. -/
inductive FtResult where
  | uid (n : Nat)
  | retFalse
  | retNone
deriving DecidableEq

/-- The `INSERT INTO FlightTable ... VALUES ...` statement text (the
source's triple-quoted string, whitespace flattened). -/
def flighttable_sql : String :=
  "INSERT INTO FlightTable (TakeoffTime, TakeoffTimeBoot, LandingTime, Duration, PilotID, TakeoffLocation, LandingLocation, GSOID, version, FlightID) VALUES (%s, %s, %s, %s, %s, ST_PointFromText(%s), ST_PointFromText(%s), %s, %s, %s)"

/-- The `flight_data` dictionary: lookup by key, `none` where Python
`flight_data[key]` would raise `KeyError` (caught by the method's
`except`). -/
abbrev FlightData : Type := String → Option String

/-- The parameter tuple `insert_to_flighttable` passes to
`cursor.execute`, built from `flight_data`; `none` when any needed key is
missing (the `KeyError` is caught and the method returns `None`). -/
def ft_params (fd : FlightData) : Option (List String) := do
  let tlon ← fd "TakeoffLong"
  let tlat ← fd "TakeoffLat"
  let llon ← fd "LandingLong"
  let llat ← fd "LandingLat"
  let takeoff_point := "POINT(" ++ tlon ++ " " ++ tlat ++ ")"
  let landing_point := "POINT(" ++ llon ++ " " ++ llat ++ ")"
  let tts ← fd "TakeoffTimestampStr"
  let bts ← fd "BootTimestampStr"
  let lts ← fd "LandingTimestampStr"
  let dur ← fd "TotalFlightTime"
  let pid ← fd "PilotUID"
  let gid ← fd "GSOUID"
  let ver ← fd "Version"
  let fid ← fd "FlightID"
  pure [tts, bts, lts, dur, pid, takeoff_point, landing_point, gid, ver, fid]

/-- Embedding of `AuroraHandler.insert_to_flighttable`: connect if needed
(returning the literal `False` when that fails); execute the single
insert, read `lastrowid`, commit and return the id; on any raise inside
the `try` return `None` with no `rollback()` call; the `finally` closes
the connection on every path that reached the `try`. -/
def insert_to_flighttable (env : DbEnv) (st : DbState) (fd : FlightData) :
    FtResult × DbState :=
  let st0 := if st.conn then st
             else if env.connectOk then { st with conn := true } else st
  if st0.conn then
    match ft_params fd with
    | none => (.retNone, close_connection st0)
    | some params =>
      if env.execOk flighttable_sql params then
        (.uid env.lastrowid, close_connection (db_commit (db_exec st0 flighttable_sql params)))
      else (.retNone, close_connection st0)
  else (.retFalse, st0)

end AuroraHandler

/-- Fixture: an engine that rejects every submission with a client-level
error (the handlers' oracles then see `none`/`err` everywhere). -/
def env_reject : AthenaEnv :=
  { start := fun _ => none, status := fun _ => none, results := fun _ => .err }

/-- Fixture: an engine that accepts every submission, reports `SUCCEEDED`
on the first poll, and serves the result set `rs`. -/
def env_success (rs : List Row) : AthenaEnv :=
  { start := fun _ => some "qid-1", status := fun _ => some "SUCCEEDED",
    results := fun _ => .rows rs }

/-- Fixture: a header-only result row (a `Data` list with one cell). -/
def header_row : Row := { rowData := some [{ varCharValue := some "loguid" }] }

/-- Fixture: a data row whose column 4 holds the firmware string. -/
def firmware_row : Row :=
  { rowData := some [{ varCharValue := some "log-1" }, { varCharValue := some "MSG" },
                     { varCharValue := some "0" }, { varCharValue := some "Message" },
                     { varCharValue := some "ArduPilot V4.3" }] }

/-- Fixture: an S3 service on which every copy fails and every delete
succeeds. -/
def s3_env_copy_fails : S3Env :=
  { copyOk := fun _ _ _ _ => false, deleteOk := fun _ _ => true,
    now := "20240101-000000" }

/-- Fixture: a database environment whose every statement execution
fails (the insert raises). -/
def db_env_fail : DbEnv :=
  { connectOk := true, execOk := fun _ _ => false, lastrowid := 7 }

/-- Fixture: a database environment on which everything succeeds. -/
def db_env_ok : DbEnv :=
  { connectOk := true, execOk := fun _ _ => true, lastrowid := 7 }

/-- Fixture: a connected handler over an empty database with no open
transaction. -/
def db_st0 : DbState := { conn := true, committed := [], pending := [], rollbacks := 0 }

/-- Fixture: a flight-data dictionary holding "v" under every key. -/
def fd_sample : AuroraHandler.FlightData := fun _ => some "v"

/-- The parameter tuple `ft_params` yields for `fd_sample`. -/
def fd_sample_params : List String :=
  ["v", "v", "v", "v", "v", "POINT(v v)", "POINT(v v)", "v", "v", "v"]

namespace AthenaHandler

theorem wait_from_sound (st : Nat → Option String) :
    ∀ (fuel k : Nat) (b : Bool), wait_from st k fuel = some b →
      ∃ j, k ≤ j ∧ j < k + fuel ∧ is_terminal (st j) = true ∧
        b = (st j == some "SUCCEEDED") ∧
        ∀ i, k ≤ i → i < j → is_terminal (st i) = false := by
  intro fuel
  induction fuel with
  | zero => intro k b h; simp [wait_from] at h
  | succ n ih =>
    intro k b h
    by_cases ht : is_terminal (st k) = true
    · refine ⟨k, le_refl k, by omega, ht, ?_, ?_⟩
      · rw [wait_from, ht] at h
        simp at h
        exact h.symm
      · intro i hk hi; omega
    · rw [wait_from] at h
      simp only [Bool.not_eq_true] at ht
      rw [ht] at h
      simp at h
      obtain ⟨j, hkj, hjf, hterm, hb, hmin⟩ := ih (k + 1) b h
      refine ⟨j, by omega, by omega, hterm, hb, ?_⟩
      intro i hki hij
      rcases Nat.eq_or_lt_of_le hki with hik | hik
      · rw [← hik]; exact ht
      · exact hmin i hik hij

theorem wait_from_reach (st : Nat → Option String) :
    ∀ (fuel k j : Nat), is_terminal (st j) = true →
      (∀ i, k ≤ i → i < j → is_terminal (st i) = false) →
      k ≤ j → j < k + fuel →
      wait_from st k fuel = some (st j == some "SUCCEEDED") := by
  intro fuel
  induction fuel with
  | zero => intro k j _ _ _ hf; omega
  | succ n ih =>
    intro k j hterm hmin hkj hjf
    rcases Nat.eq_or_lt_of_le hkj with hk | hk
    · rw [wait_from, hk, hterm]; simp
    · have hkt : is_terminal (st k) = false := hmin k (le_refl k) hk
      rw [wait_from, hkt]
      simp only [Bool.false_eq_true, if_false]
      exact ih (k + 1) j hterm (fun i hi hij => hmin i (by omega) hij) (by omega) (by omega)

end AthenaHandler

/-- C1: whenever `wait_for_query_to_complete` returns, some poll `j`
reported a state in `{SUCCEEDED, FAILED, CANCELLED}`, the returned boolean
is true exactly when that state is `SUCCEEDED`, and no earlier poll
(including polls whose status was absent, `none`) was terminal; moreover an
absent status on the current poll makes the loop continue with the next
poll. -/
theorem C1_wait_terminal_iff_succeeded :
    (∀ (st : Nat → Option String) (fuel : Nat) (b : Bool),
        AthenaHandler.wait_for_query_to_complete st fuel = some b →
        ∃ j, j < fuel ∧ AthenaHandler.is_terminal (st j) = true ∧
          (b = true ↔ st j = some "SUCCEEDED") ∧
          ∀ i, i < j → AthenaHandler.is_terminal (st i) = false)
    ∧ (∀ (st : Nat → Option String) (fuel : Nat), st 0 = none →
        AthenaHandler.wait_for_query_to_complete st (fuel + 1)
          = AthenaHandler.wait_from st 1 fuel) := by
  constructor
  · intro st fuel b h
    obtain ⟨j, _, hjf, hterm, hb, hmin⟩ :=
      AthenaHandler.wait_from_sound st fuel 0 b h
    refine ⟨j, by omega, hterm, ?_, fun i hij => hmin i (Nat.zero_le i) hij⟩
    subst hb
    simp
  · intro st fuel h0
    rw [AthenaHandler.wait_for_query_to_complete, AthenaHandler.wait_from, h0]
    rfl

/-- Witness for C1 at a concrete oracle: the first poll errors (absent
status), the second reports `SUCCEEDED`; the loop returns true and the
terminal poll exists. -/
theorem C1_wait_terminal_iff_succeeded_witness :
    ∃ j, j < 2 ∧
      AthenaHandler.is_terminal ((fun n => if n = 0 then none else some "SUCCEEDED") j) = true ∧
      (true = true ↔ (fun n => if n = 0 then none else some "SUCCEEDED") j = some "SUCCEEDED") ∧
      ∀ i, i < j →
        AthenaHandler.is_terminal ((fun n => if n = 0 then none else some "SUCCEEDED") i) = false :=
  C1_wait_terminal_iff_succeeded.1
    (fun n => if n = 0 then none else some "SUCCEEDED") 2 true (by decide)

/-- C4: the polling loop is an unbounded wait — it returns within some
fuel exactly when the status oracle eventually reports a terminal state,
and against an oracle that never reports one (perpetually `RUNNING`, or
perpetually erroring) it never returns, for any amount of fuel. -/
theorem C4_wait_unbounded_no_timeout :
    ∀ (st : Nat → Option String),
      ((∃ fuel b, AthenaHandler.wait_for_query_to_complete st fuel = some b) ↔
        (∃ j, AthenaHandler.is_terminal (st j) = true))
      ∧ ((∀ j, AthenaHandler.is_terminal (st j) = false) →
          ∀ fuel, AthenaHandler.wait_for_query_to_complete st fuel = none) := by
  intro st
  constructor
  · constructor
    · rintro ⟨fuel, b, h⟩
      obtain ⟨j, _, _, hterm, _, _⟩ := AthenaHandler.wait_from_sound st fuel 0 b h
      exact ⟨j, hterm⟩
    · intro h
      have j0 := Nat.find h
      refine ⟨Nat.find h + 1, st (Nat.find h) == some "SUCCEEDED", ?_⟩
      exact AthenaHandler.wait_from_reach st (Nat.find h + 1) 0 (Nat.find h)
        (Nat.find_spec h)
        (fun i _ hij => by
          have := Nat.find_min h hij
          simpa using this)
        (Nat.zero_le _) (by omega)
  · intro hnone fuel
    cases h : AthenaHandler.wait_for_query_to_complete st fuel with
    | none => rfl
    | some b =>
      obtain ⟨j, _, _, hterm, _, _⟩ := AthenaHandler.wait_from_sound st fuel 0 b h
      rw [hnone j] at hterm
      exact absurd hterm (by simp)

/-- Witness for C4 at a perpetually erroring oracle: no fuel makes the
loop return. -/
theorem C4_wait_unbounded_no_timeout_witness :
    AthenaHandler.wait_for_query_to_complete (fun _ => none) 5 = none :=
  (C4_wait_unbounded_no_timeout (fun _ => none)).2 (fun _ => rfl) 5

/-- C3: when the engine rejects every submission with a client-level
error, `execute_query` returns an absent id without raising, and
`check_loguid_exists`, `get_fc_firmware` and `add_partitions` each return
their negative result with a remote-call trace containing only the single
submission — no `get_query_execution` (polling) and no
`get_query_results` call follows. -/
theorem C3_rejected_submission_no_poll :
    ∀ (env : AthenaEnv), (∀ q, env.start q = none) →
      ∀ (database loguid : String) (partition_list : List String)
        (s3_bucket_name : String) (fuel : Nat) (q : String),
      AthenaHandler.execute_query env q = none
      ∧ AthenaHandler.check_loguid_exists env database loguid fuel
          = (.ok false, [.startQ (AthenaHandler.check_loguid_query database loguid)])
      ∧ AthenaHandler.get_fc_firmware env loguid fuel
          = (.ok none, [.startQ (AthenaHandler.get_fc_firmware_query loguid)])
      ∧ (AthenaHandler.get_add_partition_query database partition_list s3_bucket_name
            = some q →
          AthenaHandler.add_partitions env database partition_list s3_bucket_name fuel
            = (.ok false, [.startQ q])) := by
  intro env h database loguid partition_list s3_bucket_name fuel q
  refine ⟨h q, ?_, ?_, ?_⟩
  · rw [AthenaHandler.check_loguid_exists, h]
  · rw [AthenaHandler.get_fc_firmware, h]
  · intro hq
    simp [AthenaHandler.add_partitions, hq, h]

/-- Witness for C3: against the all-rejecting engine, the existence check
returns false having made exactly the one submission call. -/
theorem C3_rejected_submission_no_poll_witness :
    AthenaHandler.check_loguid_exists env_reject "db" "log" 3
      = (.ok false, [.startQ (AthenaHandler.check_loguid_query "db" "log")]) :=
  (C3_rejected_submission_no_poll env_reject (fun _ => rfl) "db" "log" [] "bkt" 3 "q").2.1

/-- C5: for a submission that is accepted, a poll sequence whose first
terminal report is `SUCCEEDED`, and a successfully retrieved result set
`rs`, `check_loguid_exists` returns exactly `rs.length > 1`: row 0 is the
header, so a header-only result set (one row) yields false and a header
plus at least one data row yields true. -/
theorem C5_existence_check_skips_header :
    ∀ (env : AthenaEnv) (database loguid qid : String) (rs : List Row)
      (j fuel : Nat),
      env.start (AthenaHandler.check_loguid_query database loguid) = some qid →
      env.status j = some "SUCCEEDED" →
      (∀ i, i < j → AthenaHandler.is_terminal (env.status i) = false) →
      j < fuel →
      env.results qid = .rows rs →
      (AthenaHandler.check_loguid_exists env database loguid fuel).1
        = .ok (decide (rs.length > 1)) := by
  intro env database loguid qid rs j fuel hstart hj hmin hfuel hres
  have hwait : AthenaHandler.wait_for_query_to_complete env.status fuel = some true := by
    have := AthenaHandler.wait_from_reach env.status fuel 0 j
      (by rw [hj]; rfl) (fun i _ hij => hmin i hij) (Nat.zero_le j) (by omega)
    rw [hj] at this
    simpa using this
  rw [AthenaHandler.check_loguid_exists, hstart, hwait]
  simp [hres]

/-- Witness for C5: a header-only result set yields false; adding one data
row yields true. -/
theorem C5_existence_check_skips_header_witness :
    (AthenaHandler.check_loguid_exists (env_success [header_row]) "db" "log" 1).1
      = .ok false
    ∧ (AthenaHandler.check_loguid_exists
        (env_success [header_row, firmware_row]) "db" "log" 1).1 = .ok true := by
  constructor
  · simpa using C5_existence_check_skips_header (env_success [header_row])
      "db" "log" "qid-1" [header_row] 0 1 rfl rfl (by omega) (by omega) rfl
  · simpa using C5_existence_check_skips_header (env_success [header_row, firmware_row])
      "db" "log" "qid-1" [header_row, firmware_row] 0 1 rfl rfl (by omega) (by omega) rfl

/-- C8: with an accepted submission, a poll sequence whose first terminal
report is `SUCCEEDED`, and a result set of a header row plus one data row
whose column index 4 holds "ArduPilot V4.3", `get_fc_firmware` returns
exactly that string. -/
theorem C8_firmware_fixed_offset :
    ∀ (env : AthenaEnv) (loguid qid : String) (header : Row)
      (cells : List Cell) (j fuel : Nat),
      env.start (AthenaHandler.get_fc_firmware_query loguid) = some qid →
      env.status j = some "SUCCEEDED" →
      (∀ i, i < j → AthenaHandler.is_terminal (env.status i) = false) →
      j < fuel →
      env.results qid = .rows [header, { rowData := some cells }] →
      cells.get? 4 = some { varCharValue := some "ArduPilot V4.3" } →
      (AthenaHandler.get_fc_firmware env loguid fuel).1
        = .ok (some "ArduPilot V4.3") := by
  intro env loguid qid header cells j fuel hstart hj hmin hfuel hres hcell
  have hwait : AthenaHandler.wait_for_query_to_complete env.status fuel = some true := by
    have := AthenaHandler.wait_from_reach env.status fuel 0 j
      (by rw [hj]; rfl) (fun i _ hij => hmin i hij) (Nat.zero_le j) (by omega)
    rw [hj] at this
    simpa using this
  have hcell4 : cells[4]? = some { varCharValue := some "ArduPilot V4.3" } := by
    rw [← List.get?_eq_getElem?]
    exact hcell
  rw [AthenaHandler.get_fc_firmware, hstart, hwait]
  simp [hres, hcell4]

/-- Witness for C8 at the concrete fixture result set. -/
theorem C8_firmware_fixed_offset_witness :
    (AthenaHandler.get_fc_firmware (env_success [header_row, firmware_row]) "log" 1).1
      = .ok (some "ArduPilot V4.3") :=
  C8_firmware_fixed_offset (env_success [header_row, firmware_row]) "log" "qid-1"
    header_row [{ varCharValue := some "log-1" }, { varCharValue := some "MSG" },
                { varCharValue := some "0" }, { varCharValue := some "Message" },
                { varCharValue := some "ArduPilot V4.3" }] 0 1
    rfl rfl (fun i hi => absurd hi (by omega)) (by omega) rfl rfl

/-- C2 (refuting the universal no-escape property): `get_boot_time`
indexes `results['ResultSet']['Rows'][1]` without a length guard, so when
the query succeeds but the result set has only the header row, an
`IndexError` escapes to the caller instead of the documented `None`. -/
theorem C2_boot_time_index_error_escapes :
    (AthenaHandler.get_boot_time (env_success [header_row]) "db" "log" ".BIN" 1).1
      = .exn .indexError := by
  rfl

theorem get1_isSome {α : Type} (l : List α) : l[1]?.isSome = decide (2 ≤ l.length) := by
  match l with
  | [] => rfl
  | [a] => rfl
  | a :: b :: t => simp

namespace AthenaHandler

theorem partition_clause_isSome (s3_bucket_name folder : String) :
    (partition_clause s3_bucket_name folder).isSome = well_formed_partition folder := by
  simp only [partition_clause, well_formed_partition]
  generalize split_str '/' (normalize_folder folder) = parts
  rcases parts with _ | ⟨p0, _ | ⟨p1, _ | ⟨p2, _ | ⟨p3, rest⟩⟩⟩⟩
  · simp [part_val]
  · cases h0 : (split_str '=' p0).get? 1 <;> simp [part_val, h0]
  · cases h0 : (split_str '=' p0).get? 1 <;> cases h1 : (split_str '=' p1).get? 1 <;>
      simp [part_val, h0, h1]
  · cases h0 : (split_str '=' p0).get? 1 <;> cases h1 : (split_str '=' p1).get? 1 <;>
      cases h2 : (split_str '=' p2).get? 1 <;> simp [part_val, h0, h1, h2]
  · have hlen : (4:Nat) ≤ (p0 :: p1 :: p2 :: p3 :: rest).length := by
      simp
    cases h0 : (split_str '=' p0).get? 1 <;> cases h1 : (split_str '=' p1).get? 1 <;>
      cases h2 : (split_str '=' p2).get? 1 <;> cases h3 : (split_str '=' p3).get? 1 <;>
      simp [part_val, h0, h1, h2, h3, hlen, ← get1_isSome, ← List.get?_eq_getElem?]

theorem partitions_foldl_eq_filterMap (s3_bucket_name : String) :
    ∀ (partition_list : List String) (acc : List String),
      partition_list.foldl
        (fun acc folder =>
          match partition_clause s3_bucket_name folder with
          | some p => acc ++ [p]
          | none => acc) acc
        = acc ++ partition_list.filterMap (partition_clause s3_bucket_name) := by
  intro partition_list
  induction partition_list with
  | nil => intro acc; simp
  | cons f rest ih =>
    intro acc
    cases h : partition_clause s3_bucket_name f <;>
      simp [List.foldl_cons, List.filterMap_cons, h, ih]

end AthenaHandler

/-- C6: `get_add_partition_query` is total (the per-item `IndexError` is
caught and the entry skipped), the clauses of the produced query are
exactly those of the well-formed entries in their original order, and an
entry is skipped precisely when, after normalization, it has fewer than
four `/`-separated parts or one of the first four lacks an `=`
separator. -/
theorem C6_malformed_partition_entries_skipped
    (database s3_bucket_name : String) (partition_list : List String) :
    AthenaHandler.get_add_partition_query database partition_list s3_bucket_name
      = (let clauses :=
           partition_list.filterMap (AthenaHandler.partition_clause s3_bucket_name)
         if clauses.isEmpty then none
         else some (s!"ALTER TABLE {database} ADD\n"
            ++ String.intercalate "\n" clauses ++ ";"))
    ∧ ∀ folder, (AthenaHandler.partition_clause s3_bucket_name folder).isSome
        = AthenaHandler.well_formed_partition folder := by
  refine ⟨?_, fun folder => AthenaHandler.partition_clause_isSome s3_bucket_name folder⟩
  rw [AthenaHandler.get_add_partition_query,
    AthenaHandler.partitions_foldl_eq_filterMap s3_bucket_name partition_list []]
  simp

/-- C10: when the partition list is empty or every entry is malformed,
no clause is produced, `get_add_partition_query` returns an absent query,
and `add_partitions` returns false having made no remote call at all. -/
theorem C10_all_malformed_no_submission :
    ∀ (env : AthenaEnv) (database s3_bucket_name : String)
      (partition_list : List String) (fuel : Nat),
      (∀ f ∈ partition_list, AthenaHandler.well_formed_partition f = false) →
      AthenaHandler.get_add_partition_query database partition_list s3_bucket_name = none
      ∧ AthenaHandler.add_partitions env database partition_list s3_bucket_name fuel
          = (.ok false, []) := by
  intro env database s3_bucket_name partition_list fuel h
  have hfm : partition_list.filterMap (AthenaHandler.partition_clause s3_bucket_name)
      = [] := by
    rw [List.filterMap_eq_nil_iff]
    intro f hf
    have hs := AthenaHandler.partition_clause_isSome s3_bucket_name f
    rw [h f hf] at hs
    exact Option.not_isSome_iff_eq_none.mp (by simp [hs])
  have hq : AthenaHandler.get_add_partition_query database partition_list
      s3_bucket_name = none := by
    rw [AthenaHandler.get_add_partition_query,
      AthenaHandler.partitions_foldl_eq_filterMap s3_bucket_name partition_list []]
    simp [hfm]
  exact ⟨hq, by rw [AthenaHandler.add_partitions, hq]⟩

/-- Witness for C10: a list whose entries all lack a fourth `key=value`
segment yields no query and no remote call; likewise the empty list. -/
theorem C10_all_malformed_no_submission_witness :
    (AthenaHandler.get_add_partition_query "db"
        ["LogUID=a/MessageType=b/Instance=0", "plain"] "bkt" = none
      ∧ AthenaHandler.add_partitions env_reject "db"
          ["LogUID=a/MessageType=b/Instance=0", "plain"] "bkt" 3 = (.ok false, []))
    ∧ (AthenaHandler.get_add_partition_query "db" [] "bkt" = none
      ∧ AthenaHandler.add_partitions env_reject "db" [] "bkt" 3 = (.ok false, [])) :=
  ⟨C10_all_malformed_no_submission env_reject "db" "bkt"
      ["LogUID=a/MessageType=b/Instance=0", "plain"] 3 (by decide),
   C10_all_malformed_no_submission env_reject "db" "bkt" [] 3 (by simp)⟩

/-- C9: `upload_unprocessed_s3` deletes the source object only after a
successful copy — whenever the copy to the timestamped unprocessed
destination fails, the function returns false, its S3 trace is exactly the
one failed copy, and no delete is ever invoked. -/
theorem C9_no_delete_after_failed_copy :
    ∀ (env : S3Env) (source_bucket source_key
        unprocessed_destination_bucket s3dir : String),
      env.copyOk source_bucket source_key unprocessed_destination_bucket
          (s3dir ++ "/" ++ env.now ++ "/" ++ source_key) = false →
      S3Handler.upload_unprocessed_s3 env source_bucket source_key
          unprocessed_destination_bucket s3dir
        = (false, [.copy source_bucket source_key unprocessed_destination_bucket
            (s3dir ++ "/" ++ env.now ++ "/" ++ source_key)])
      ∧ ∀ b k, S3Op.del b k ∉
          (S3Handler.upload_unprocessed_s3 env source_bucket source_key
            unprocessed_destination_bucket s3dir).2 := by
  intro env source_bucket source_key unprocessed_destination_bucket s3dir h
  have he : S3Handler.upload_unprocessed_s3 env source_bucket source_key
      unprocessed_destination_bucket s3dir
      = (false, [.copy source_bucket source_key unprocessed_destination_bucket
          (s3dir ++ "/" ++ env.now ++ "/" ++ source_key)]) := by
    simp [S3Handler.upload_unprocessed_s3, S3Handler.copy_file_s3_to_s3, h]
  refine ⟨he, fun b k => ?_⟩
  rw [he]
  simp

/-- Witness for C9 on the always-failing-copy S3 service. -/
theorem C9_no_delete_after_failed_copy_witness :
    S3Handler.upload_unprocessed_s3 s3_env_copy_fails "src-bkt" "obj.bin"
        "unproc-bkt" "NoCategory"
      = (false, [.copy "src-bkt" "obj.bin" "unproc-bkt"
          ("NoCategory" ++ "/" ++ s3_env_copy_fails.now ++ "/" ++ "obj.bin")]) :=
  (C9_no_delete_after_failed_copy s3_env_copy_fails "src-bkt" "obj.bin"
    "unproc-bkt" "NoCategory" rfl).1

/-- C7 counterexample: the claim as stated demands that every insert
entry point — `insert_to_flighttable` included — roll the transaction
back on an execution error.  At this concrete input every statement
execution fails, `insert_to_flighttable` returns its negative result, and
the resulting state records zero `rollback()` calls: the method's
`except` clause returns `None` without rolling back (the `finally` merely
closes the connection). -/
theorem C7_flighttable_no_rollback_counterexample :
    (∀ q ps, db_env_fail.execOk q ps = false)
    ∧ AuroraHandler.insert_to_flighttable db_env_fail db_st0 fd_sample
        = (.retNone, { conn := false, committed := [], pending := [], rollbacks := 0 }) :=
  ⟨fun _ _ => rfl, rfl⟩

/-- C7 as amended: `execute_insert_or_update` (the path of
`insert_summary`, `insert_error`, `insert_log`, `update_telemetry_info`,
`add_flight_file_record`) executes exactly one statement and commits it on
success; on an execution error it invokes `rollback()`, leaves the
committed state unchanged and returns false.  `insert_to_flighttable`
also executes exactly one committed statement on success, but on an
execution error it returns `None` and closes the connection — which
discards the uncommitted transaction and leaves the committed state
unchanged — without invoking `rollback()`. -/
theorem C7_insert_paths_commit_or_discard :
    (∀ (env : DbEnv) (st : DbState) (query : String) (params : List String),
        st.conn = true → st.pending = [] →
        (env.execOk query params = true →
          AuroraHandler.execute_insert_or_update env st query params
            = (true, { st with committed := st.committed ++ [(query, params)],
                               pending := [] }))
        ∧ (env.execOk query params = false →
          AuroraHandler.execute_insert_or_update env st query params
            = (false, { st with pending := [], rollbacks := st.rollbacks + 1 })))
    ∧ (∀ (env : DbEnv) (st : DbState) (fd : AuroraHandler.FlightData)
          (params : List String),
        st.conn = true → st.pending = [] →
        AuroraHandler.ft_params fd = some params →
        (env.execOk AuroraHandler.flighttable_sql params = true →
          AuroraHandler.insert_to_flighttable env st fd
            = (.uid env.lastrowid,
               { st with conn := false,
                         committed := st.committed
                           ++ [(AuroraHandler.flighttable_sql, params)],
                         pending := [] }))
        ∧ (env.execOk AuroraHandler.flighttable_sql params = false →
          AuroraHandler.insert_to_flighttable env st fd
            = (.retNone, { st with conn := false, pending := [] }))) := by
  constructor
  · intro env st query params hconn hpend
    constructor
    · intro hexec
      rw [AuroraHandler.execute_insert_or_update, AuroraHandler.ensure_conn, hconn]
      simp [hexec, AuroraHandler.db_commit, AuroraHandler.db_exec, hpend, hconn]
    · intro hexec
      rw [AuroraHandler.execute_insert_or_update, AuroraHandler.ensure_conn, hconn]
      simp [hexec, AuroraHandler.db_rollback, hpend, hconn]
  · intro env st fd params hconn hpend hparams
    constructor
    · intro hexec
      rw [AuroraHandler.insert_to_flighttable, hconn]
      simp [hparams, hexec, AuroraHandler.close_connection, AuroraHandler.db_commit,
        AuroraHandler.db_exec, hpend, hconn]
    · intro hexec
      rw [AuroraHandler.insert_to_flighttable, hconn]
      simp [hparams, hexec, AuroraHandler.close_connection, hpend, hconn]

/-- Witness for C7 as amended: a successful insert through
`execute_insert_or_update` commits the one statement, and a failing
insert through `insert_to_flighttable` returns `None` with an unchanged
committed state and no rollback. -/
theorem C7_insert_paths_commit_or_discard_witness :
    AuroraHandler.execute_insert_or_update db_env_ok db_st0 "INSERT" ["p"]
      = (true, { conn := true, committed := [("INSERT", ["p"])], pending := [],
                 rollbacks := 0 })
    ∧ AuroraHandler.insert_to_flighttable db_env_fail db_st0 fd_sample
        = (.retNone, { conn := false, committed := [], pending := [], rollbacks := 0 }) :=
  ⟨by simpa using (C7_insert_paths_commit_or_discard.1 db_env_ok db_st0 "INSERT" ["p"]
      rfl rfl).1 rfl,
   by simpa using (C7_insert_paths_commit_or_discard.2 db_env_fail db_st0 fd_sample
      fd_sample_params rfl rfl rfl).2 rfl⟩

